import Mathlib

/-!
Verification development for the ECC batch processing core
(src/ecc_batch/views.py).

Strings are modelled as lists of characters (the reports are ASCII), table
cells as optional strings (pdfplumber yields None cells), and monetary
amounts as exact rationals: every float the code manipulates is produced by
parsing a short decimal literal and is then only negated or compared, all of
which are exact operations on the reachable values, so the rational model
agrees with IEEE semantics on the domain of interest.
-/

abbrev Str := List Char

abbrev Cell := Option Str

/-- Python whitespace test used by str.strip and str.split. -/
def pyIsSpace (c : Char) : Bool :=
  c == ' ' || c == '\t' || c == '\n' || c == '\r' || c == '\x0b' || c == '\x0c'

/-- Python str.strip(): remove leading and trailing whitespace. -/
def pyStrip (s : Str) : Str :=
  ((s.dropWhile pyIsSpace).reverse.dropWhile pyIsSpace).reverse

/-- Python str.upper() on ASCII text. -/
def pyUpper (s : Str) : Str := s.map Char.toUpper

/-- Python str.isdigit(): nonempty and all digits. -/
def pyIsDigit (s : Str) : Bool := !s.isEmpty && s.all Char.isDigit

/-- Python str.isalpha(): nonempty and all alphabetic. -/
def pyIsAlpha (s : Str) : Bool := !s.isEmpty && s.all Char.isAlpha

/-- Python str.isupper() on ASCII: has a cased character and no lowercase one. -/
def pyIsUpperStr (s : Str) : Bool :=
  s.any Char.isAlpha && s.all (fun c => !c.isAlpha || c.isUpper)

/-- Does the string begin with the given pattern. -/
def startsWithStr : Str → Str → Bool
  | _, [] => true
  | [], _ :: _ => false
  | a :: as, b :: bs => a == b && startsWithStr as bs

/-- Python substring test: sub occurs contiguously in s. -/
def strContains (sub : Str) : Str → Bool
  | [] => sub.isEmpty
  | c :: rest => startsWithStr (c :: rest) sub || strContains sub rest

/-- Python single-character membership test. -/
def hasChar (s : Str) (c : Char) : Bool := s.any (· == c)

/-- Python s.replace(c, two-quote empty string): delete every occurrence of c. -/
def dropChar (s : Str) (c : Char) : Str := s.filter (· != c)

/-- Python str.split() with no argument: split on whitespace, dropping empties. -/
def pySplit (s : Str) : List Str :=
  (List.splitOnP pyIsSpace s).filter (fun t => !t.isEmpty)

/-- Numeric value of a digit string, as Python int parsing of it. -/
def digitsToNat (s : Str) : Nat := s.foldl (fun acc c => acc * 10 + (c.toNat - 48)) 0

/-- Python float(s) for strings over digits, period and minus sign, the only
shape the call sites admit (each call is guarded by an isdigit test after
removing commas, periods and minus signs): an optional leading sign, then
digits with at most one decimal point and at least one digit; anything else
raises ValueError, modelled as none.  The value is the exact decimal. -/
def pyFloat? (s : Str) : Option ℚ :=
  let core := match s with
    | '-' :: rest => (true, rest)
    | _ => (false, s)
  let neg := core.1
  let t := core.2
  if t.any (fun c => !(c.isDigit || c == '.')) then none
  else if !t.any Char.isDigit then none
  else if 2 ≤ (t.filter (· == '.')).length then none
  else
    let intPart := t.takeWhile (· != '.')
    let fracPart := (t.dropWhile (· != '.')).drop 1
    let scale : Nat := 10 ^ fracPart.length
    let mag : Nat := digitsToNat intPart * scale + digitsToNat fracPart
    some (if neg then mkRat (-(mag : Int)) scale else mkRat (mag : Int) scale)

/-- A cheque record as assembled by the extraction code (the dict literal in
extract_from_table and extract_from_text). -/
structure ChequeRecord where
  bfd_account : Str
  cheque_amount : ℚ
  pay_bank_name : Str
  pay_account : Str
  cheque_number : Str
  branch_code : Str
  reason : Str
deriving Repr, DecidableEq

/-- One output row of a ledger batch: the seven cells written per worksheet
row (BRANCHCODE, MAINCODE, TRANCODE, AMOUNT, LCYAMOUNT, DESC1, DESC2). -/
structure LedgerRow where
  branchcode : Str
  maincode : Str
  trancode : Str
  amount : ℚ
  lcyamount : ℚ
  desc1 : Str
  desc2 : Str
deriving Repr, DecidableEq

/-- The BANK_NAME_FIXES table (views.py:285). -/
def BANK_NAME_FIXES : List (Str × Str) :=
  [("CITIZE".toList, "CITIZENS".toList),
   ("KUMARI".toList, "KUMARI".toList),
   ("KUMA".toList, "KUMARI".toList),
   ("SIDDHA".toList, "SIDDHARTHA".toList),
   ("SIDDH".toList, "SIDDHARTHA".toList),
   ("MACHI".toList, "MACHAPUCHARE".toList),
   ("MACHA".toList, "MACHAPUCHARE".toList),
   ("SUNRI".toList, "SUNRISE".toList),
   ("EXCEL".toList, "EXCEL".toList)]

/-- Dict lookup: some value when the key is present. -/
def fixLookup (fixes : List (Str × Str)) (k : Str) : Option Str :=
  match fixes.find? (fun p => p.1 == k) with
  | some p => some p.2
  | none => none

/-- Lookup with identity fallback, the idiom
if name in fixes then fixes[name] else name. -/
def fixOrId (fixes : List (Str × Str)) (k : Str) : Str :=
  match fixLookup fixes k with
  | some v => v
  | none => k

/-- Python truthiness of a cell: None and the empty string are falsy. -/
def cellVal : Cell → Option Str
  | none => none
  | some s => if s.isEmpty then none else some s

/-- Guarded indexing len(row) greater than i and row[i] truthy. -/
def getCell (row : List Cell) (i : Nat) : Option Str := cellVal (row.getD i none)

/-! ## Field extractors, table mode (views.py:443-613) -/

/-- Validity test for a BFD account cell: all digits, length 12 to 17. -/
def bfdOk (s : Str) : Bool := pyIsDigit s && 12 ≤ s.length && s.length ≤ 17

/-- Primary branch of extract_bfd_account: fixed column 9. -/
def extract_bfd_account_primary (row : List Cell) : Option Str :=
  match getCell row 9 with
  | some c =>
    let s := pyStrip c
    if bfdOk s then some s else none
  | none => none

/-- Fallback candidate list of extract_bfd_account: tuples of
(length, column index, value). -/
def bfdCandidates (row : List Cell) : List (Nat × Nat × Str) :=
  row.enum.filterMap (fun ic =>
    match cellVal ic.2 with
    | some c =>
      let s := pyStrip c
      if bfdOk s then some (s.length, ic.1, s) else none
    | none => none)

/-- Comparator realizing candidates.sort with key (length, negated distance
to column 9) and reverse=True: a precedes b when its key is at least b's. -/
def bfdKeyGe (a b : Nat × Nat × Str) : Bool :=
  b.1 < a.1 || (a.1 == b.1 && ((a.2.1 : Int) - 9).natAbs ≤ ((b.2.1 : Int) - 9).natAbs)

/-- extract_bfd_account (views.py:443): column 9 first, then the scan of all
cells for 12-17 digit strings, preferring the longest and breaking ties by
proximity to column 9. -/
def extract_bfd_account (row : List Cell) : Option Str :=
  match extract_bfd_account_primary row with
  | some s => some s
  | none =>
    match (List.mergeSort (bfdCandidates row) bfdKeyGe).head? with
    | some c => some c.2.2
    | none => none

/-- Validity test for a cheque number: all digits, length 6 to 10. -/
def chqOk (s : Str) : Bool := pyIsDigit s && 6 ≤ s.length && s.length ≤ 10

/-- Fallback scan of extract_cheque_number over all cells. -/
def chequeScan (row : List Cell) : Option Str :=
  row.findSome? (fun cell =>
    match cellVal cell with
    | some c =>
      let s := pyStrip c
      if chqOk s then some s else none
    | none => none)

/-- extract_cheque_number (views.py:510): column 6 first, then scan. -/
def extract_cheque_number (row : List Cell) : Option Str :=
  match getCell row 6 with
  | some c =>
    let s := pyStrip c
    if chqOk s then some s else chequeScan row
  | none => chequeScan row

/-- Primary branch of extract_amount (views.py:528-538): fixed column 13,
admitted when the cell has a comma, a period, or is all digits; parsed after
comma removal; returned when positive, with no upper bound on this path. -/
def extract_amount_primary (row : List Cell) : Option ℚ :=
  match getCell row 13 with
  | some c =>
    let s := pyStrip c
    if hasChar s ',' || hasChar s '.' || pyIsDigit s then
      let amount_str := dropChar s ','
      if pyIsDigit (amount_str.filter (fun c => c != '.' && c != '-')) then
        match pyFloat? amount_str with
        | some amt => if 0 < amt then some amt else none
        | none => none
      else none
    else none
  | none => none

/-- One step of the fallback scan of extract_amount (views.py:540-560). -/
def amountScanCell (cell : Cell) : Option ℚ :=
  match cellVal cell with
  | some c =>
    let s := pyStrip c
    if hasChar s ',' || hasChar s '.' then
      let amount_str := dropChar s ','
      if pyIsDigit (amount_str.filter (fun c => c != '.' && c != '-')) then
        match pyFloat? amount_str with
        | some amt => if 0 < amt ∧ amt < 100000000 then some amt else none
        | none => none
      else none
    else if pyIsDigit s && 3 ≤ s.length then
      let amt : ℚ := (digitsToNat s : ℚ)
      if 0 < amt ∧ amt < 100000000 then some amt else none
    else none
  | none => none

/-- extract_amount (views.py:526): primary column 13, then cell scan. -/
def extract_amount (row : List Cell) : Option ℚ :=
  match extract_amount_primary row with
  | some a => some a
  | none => row.findSome? amountScanCell

/-- Fallback scan of extract_branch_code: any 3-digit cell other than 201. -/
def branchScan (row : List Cell) : Option Str :=
  row.findSome? (fun cell =>
    match cellVal cell with
    | some c =>
      let s := pyStrip c
      if pyIsDigit s && s.length == 3 && s != "201".toList then some s else none
    | none => none)

/-- extract_branch_code (views.py:565): column 7 first, then scan. -/
def extract_branch_code (row : List Cell) : Option Str :=
  match getCell row 7 with
  | some c =>
    let s := pyStrip c
    if pyIsDigit s && s.length == 3 then some s else branchScan row
  | none => branchScan row

/-- Primary bank name branch of extract_bank_info: column 11.  A name that
ends up empty is falsy in Python and triggers the fallback, hence none. -/
def extract_bank_info_primary_name (fixes : List (Str × Str)) (row : List Cell) : Option Str :=
  match getCell row 11 with
  | some c =>
    let s := pyStrip c
    let name :=
      if hasChar s '\n' then pyStrip (dropChar s '\n')
      else if pyIsAlpha s || (!s.isEmpty && !pyIsDigit s) then pyUpper s
      else []
    if name.isEmpty then none else some (fixOrId fixes name)
  | none => none

/-- Primary pay account branch of extract_bank_info: column 12, digits of
length at least 8. -/
def extract_bank_info_primary_acc (row : List Cell) : Option Str :=
  match getCell row 12 with
  | some c =>
    let s := pyStrip c
    if pyIsDigit s && 8 ≤ s.length then some s else none
  | none => none

/-- One step of the fallback scan of extract_bank_info (views.py:484-505):
at a 3-4 digit cell not too near the end, look at the next cell for a bank
name and at the one after for a pay account; a successful step breaks. -/
def bankFallbackStep (fixes : List (Str × Str)) (rowLen : Nat) (row : List Cell)
    (i : Nat) (cell : Cell) : Option (Str × Option Str) :=
  match cellVal cell with
  | none => none
  | some c =>
    let s := pyStrip c
    if pyIsDigit s && 3 ≤ s.length && s.length ≤ 4 && i < rowLen - 2 then
      match (if i + 1 < rowLen then cellVal (row.getD (i + 1) none) else none) with
      | some nc =>
        let next_cell := pyStrip nc
        if !next_cell.isEmpty && (pyIsAlpha next_cell || hasChar next_cell '\n') then
          let name0 :=
            if hasChar next_cell '\n' then pyStrip (dropChar next_cell '\n')
            else pyUpper next_cell
          let name := fixOrId fixes name0
          let acc :=
            if i + 2 < rowLen then
              match cellVal (row.getD (i + 2) none) with
              | some ac =>
                let acc_cell := pyStrip ac
                if pyIsDigit acc_cell && 8 ≤ acc_cell.length then some acc_cell else none
              | none => none
            else none
          some (name, acc)
        else none
      | none => none
    else none

/-- The fallback scan of extract_bank_info; first successful step wins. -/
def bankFallbackScan (fixes : List (Str × Str)) (row : List Cell) : Option (Str × Option Str) :=
  row.enum.findSome? (fun ic => bankFallbackStep fixes row.length row ic.1 ic.2)

/-- extract_bank_info (views.py:464): primary columns 11 and 12, with the
scanning fallback for the name; the fallback may also override the account.
The empty string stands for the falsy values None and empty alike, which the
downstream consumers treat identically. -/
def extract_bank_info (row : List Cell) (fixes : List (Str × Str)) : Str × Str :=
  let primaryAcc :=
    match extract_bank_info_primary_acc row with
    | some a => a
    | none => []
  match extract_bank_info_primary_name fixes row with
  | some name => (name, primaryAcc)
  | none =>
    match bankFallbackScan fixes row with
    | some (name, some acc) => (name, acc)
    | some (name, none) => (name, primaryAcc)
    | none => ([], primaryAcc)

/-- Keyword list of extract_reason (views.py:583). -/
def reason_keywords : List Str :=
  ["INSUFFICIENT", "SIGNATURE", "ACCOUNT", "CLOSED", "STOP",
   "PAYMENT", "DRAWER", "IRREGUL", "FUNDS", "REFER", "EXCEEDS",
   "AMOUNT", "WORDS", "FIGURES", "DIFFER", "POST", "DATED",
   "STALE", "MUTILATED", "CLEARING", "ENDORSEMENT", "ACCEPTED",
   "INVALID", "WRONG"].map String.toList

/-- Stoplist of exact cell values skipped by the reason scan. -/
def reasonStoplist : List Str :=
  ["CLG", "BANK", "ENDORSEMENT", "BFD", "PAY", "ACCOUNT"].map String.toList

/-- The test s.replace comma.replace period.isdigit used to skip numeric
cells in extract_reason. -/
def isNumericish (s : Str) : Bool := pyIsDigit (dropChar (dropChar s ',') '.')

/-- extract_reason (views.py:581): column 13 when long enough and not
numeric, else a backward scan for keyword or multi-word alphabetic cells. -/
def extract_reason (row : List Cell) : Option Str :=
  let primary :=
    match getCell row 13 with
    | some c =>
      let s := pyUpper (pyStrip c)
      if 3 ≤ s.length && !isNumericish s then some s else none
    | none => none
  match primary with
  | some s => some s
  | none =>
    row.reverse.findSome? (fun cell =>
      match cellVal cell with
      | some c =>
        let s := pyUpper (pyStrip c)
        if isNumericish s then none
        else if s.length < 3 then none
        else if reasonStoplist.contains s then none
        else if reason_keywords.any (fun k => strContains k s) then some s
        else if hasChar s ' ' && s.any Char.isAlpha then some s
        else none
      | none => none)

/-! ## Table-mode extractor (views.py:338-393) -/

/-- Header labels rejected by the row admission test. -/
def headerLabels : List Str :=
  ["SESSION", "SN", "S.N", "S.N.", "SR", "NO", "SERIAL", "DATE", "SEQUENCE"].map String.toList

/-- One row of extract_from_table: admission rules, field extraction, and
the mandatory-field gate; none when the row yields no record.  The truthy
gate on the three mandatory fields coincides with the extractors returning
some value, since they never produce an empty string or a zero amount. -/
def processTableRow (fixes : List (Str × Str)) (row : List Cell) : Option ChequeRecord :=
  if row.length < 9 then none
  else
    let first_cell :=
      match cellVal (row.getD 0 none) with
      | some s => pyUpper (pyStrip s)
      | none => []
    if headerLabels.contains first_cell then none
    else if strContains "TOTAL".toList first_cell ||
            strContains "END OF REPORT".toList first_cell then none
    else
      match extract_bfd_account row, extract_amount row, extract_cheque_number row with
      | some bfd, some amt, some chq =>
        let bankInfo := extract_bank_info row fixes
        some { bfd_account := bfd
               cheque_amount := amt
               pay_bank_name := if bankInfo.1.isEmpty then "CLG".toList else bankInfo.1
               pay_account := bankInfo.2
               cheque_number := chq
               branch_code :=
                 match extract_branch_code row with
                 | some b => b
                 | none => "255".toList
               reason :=
                 match extract_reason row with
                 | some r => r
                 | none => [] }
      | _, _, _ => none

/-- extract_from_table (views.py:338): all rows of all tables, in order. -/
def extract_from_table (tables : List (List (List Cell))) (fixes : List (Str × Str)) :
    List ChequeRecord :=
  (tables.map (fun table => table.filterMap (processTableRow fixes))).flatten

/-! ## Field extractors, text mode (views.py:620-724) -/

/-- Lexicographic strict order on strings by character code, as in Python
tuple comparison of the second component. -/
def strLtChars : Str → Str → Bool
  | [], [] => false
  | [], _ :: _ => true
  | _ :: _, [] => false
  | a :: as, b :: bs => a < b || (a == b && strLtChars as bs)

/-- Comparator for candidates.sort(reverse=True) over (length, value)
tuples in extract_bfd_account_from_parts. -/
def bfdPartsGe (a b : Nat × Str) : Bool :=
  b.1 < a.1 || (a.1 == b.1 && !strLtChars a.2 b.2)

/-- extract_bfd_account_from_parts (views.py:620): the longest 12-17 digit
token wins. -/
def extract_bfd_account_from_parts (parts : List Str) : Option Str :=
  let candidates := parts.filterMap (fun p => if bfdOk p then some (p.length, p) else none)
  match (List.mergeSort candidates bfdPartsGe).head? with
  | some c => some c.2
  | none => none

/-- extract_cheque_number_from_parts (views.py:661): first 6-10 digit token. -/
def extract_cheque_number_from_parts (parts : List Str) : Option Str :=
  parts.findSome? (fun p => if chqOk p then some p else none)

/-- First pass of extract_amount_from_parts: tokens with a comma or period,
validated and bounded. -/
def amountPartPass1 (p : Str) : Option ℚ :=
  if hasChar p ',' || hasChar p '.' then
    let s := dropChar p ','
    if pyIsDigit (s.filter (fun c => c != '.' && c != '-')) then
      match pyFloat? s with
      | some amt => if 0 < amt ∧ amt < 100000000 then some amt else none
      | none => none
    else none
  else none

/-- Second pass of extract_amount_from_parts: bare digit tokens of length at
least 3, bounded. -/
def amountPartPass2 (p : Str) : Option ℚ :=
  if pyIsDigit p && 3 ≤ p.length then
    let amt : ℚ := (digitsToNat p : ℚ)
    if 0 < amt ∧ amt < 100000000 then some amt else none
  else none

/-- extract_amount_from_parts (views.py:668): both passes walk the tokens
from the end of the line. -/
def extract_amount_from_parts (parts : List Str) : Option ℚ :=
  match parts.reverse.findSome? amountPartPass1 with
  | some a => some a
  | none => parts.reverse.findSome? amountPartPass2

/-- extract_branch_code_from_parts (views.py:692). -/
def extract_branch_code_from_parts (parts : List Str) : Option Str :=
  parts.findSome? (fun p =>
    if pyIsDigit p && p.length == 3 && p != "201".toList then some p else none)

/-- Token exclusion list of extract_bank_info_from_parts (views.py:636),
kept with the mixed casing of the source. -/
def bankPartsExcl : List Str :=
  ["ACCEPTED", "Bank", "Endorsement", "Irregular", "Fund", "BFD", "PAY"].map String.toList

/-- One step of the token loop of extract_bank_info_from_parts; nextTok is
the first token of the following line when that line exists and is not
blank.  A successful step breaks the loop. -/
def bankPartsStep (fixes : List (Str × Str)) (nextTok : Option Str)
    (i : Nat) (p : Str) : Option (Str × Nat) :=
  if pyIsAlpha p && 2 ≤ p.length && p.length ≤ 12 && pyIsUpperStr p then
    if bankPartsExcl.contains p then none
    else
      match nextTok with
      | some t =>
        if p.length < 6 && pyIsAlpha t && t.length ≤ 6 then
          let combined := p ++ t
          if (fixes.map (fun x => x.2)).contains combined || 4 ≤ combined.length then
            some (combined, i)
          else some (fixOrId fixes p, i)
        else some (fixOrId fixes p, i)
      | none => some (fixOrId fixes p, i)
  else none

/-- extract_bank_info_from_parts (views.py:629): find an uppercase
alphabetic token, possibly merged with the first token of the next line,
then take the following token as pay account when it is 8 or more digits. -/
def extract_bank_info_from_parts (parts : List Str) (line_idx : Nat)
    (all_lines : List Str) (fixes : List (Str × Str)) : Str × Str :=
  let nextTok : Option Str :=
    if line_idx + 1 < all_lines.length then (pySplit (all_lines.getD (line_idx + 1) [])).head?
    else none
  match parts.enum.findSome? (fun ip => bankPartsStep fixes nextTok ip.1 ip.2) with
  | some (name, idx) =>
    let acc :=
      if idx + 1 < parts.length then
        let np := parts.getD (idx + 1) []
        if pyIsDigit np && 8 ≤ np.length then np else []
      else []
    (name, acc)
  | none => ([], [])

/-- Keyword list of extract_reason_from_parts (views.py:700), which lacks
the INVALID and WRONG entries of the table-mode list. -/
def reason_keywords_text : List Str :=
  ["INSUFFICIENT", "SIGNATURE", "ACCOUNT", "CLOSED", "STOP",
   "PAYMENT", "DRAWER", "IRREGUL", "FUNDS", "REFER", "EXCEEDS",
   "AMOUNT", "WORDS", "FIGURES", "DIFFER", "POST", "DATED",
   "STALE", "MUTILATED", "CLEARING", "ENDORSEMENT", "ACCEPTED"].map String.toList

/-- Token stoplist of the final branch of extract_reason_from_parts. -/
def reasonTextStop : List Str := ["CLG", "BANK", "BFD", "PAY"].map String.toList

/-- The backward token loop of extract_reason_from_parts: the argument is
the reversed token list; insert-at-front while walking backwards yields the
tokens in original order, and a token with a comma and a digit breaks. -/
def reasonTextLoop : List Str → List Str
  | [] => []
  | p :: rest =>
    let pu := pyUpper p
    if hasChar p ',' && p.any Char.isDigit then []
    else if reason_keywords_text.any (fun k => strContains k pu) then
      reasonTextLoop rest ++ [p]
    else if p.length < 3 then reasonTextLoop rest
    else if !pyIsDigit p && pyIsAlpha p && !reasonTextStop.contains pu then
      reasonTextLoop rest ++ [p]
    else reasonTextLoop rest

/-- Python space-join of a token list. -/
def joinSpace : List Str → Str
  | [] => []
  | [x] => x
  | x :: y :: rest => x ++ ' ' :: joinSpace (y :: rest)

/-- extract_reason_from_parts (views.py:699). -/
def extract_reason_from_parts (parts : List Str) : Option Str :=
  let rp := reasonTextLoop parts.reverse
  if rp.isEmpty then none else some (joinSpace rp)

/-! ## Text-mode extractor (views.py:396-436) -/

/-- One line of extract_from_text: admission rules, token extraction and the
mandatory-field gate. -/
def processTextLine (fixes : List (Str × Str)) (all_lines : List Str)
    (idx : Nat) (line : Str) : Option ChequeRecord :=
  let parts := pySplit line
  if parts.length < 9 then none
  else
    let has_cheque_number := parts.any (fun p => pyIsDigit p && 6 ≤ p.length && p.length ≤ 10)
    let has_amount := parts.any (fun p => hasChar p ',' || (hasChar p '.' && p.any Char.isDigit))
    if !(has_cheque_number && has_amount) then none
    else
      match extract_bfd_account_from_parts parts, extract_amount_from_parts parts,
            extract_cheque_number_from_parts parts with
      | some bfd, some amt, some chq =>
        let bankInfo := extract_bank_info_from_parts parts idx all_lines fixes
        some { bfd_account := bfd
               cheque_amount := amt
               pay_bank_name := if bankInfo.1.isEmpty then "CLG".toList else bankInfo.1
               pay_account := bankInfo.2
               cheque_number := chq
               branch_code :=
                 match extract_branch_code_from_parts parts with
                 | some b => b
                 | none => "255".toList
               reason :=
                 match extract_reason_from_parts parts with
                 | some r => r
                 | none => [] }
      | _, _, _ => none

/-- extract_from_text (views.py:396), taking the page text already split
into lines (the line splitting of the source is text.split on newline). -/
def extract_from_text (all_lines : List Str) (fixes : List (Str × Str)) : List ChequeRecord :=
  all_lines.enum.filterMap (fun il => processTextLine fixes all_lines il.1 il.2)

/-! ## Record filters (views.py:267-278 and the eligibility loop of
generate_commission_batch, views.py:1241-1246) -/

/-- The acceptance test: ACCEPTED occurs in the upper-cased stripped reason. -/
def isAcceptedReason (r : ChequeRecord) : Bool :=
  strContains "ACCEPTED".toList (pyStrip (pyUpper r.reason))

/-- filter_accepted_cheques (views.py:267). -/
def filter_accepted_cheques (data : List ChequeRecord) : List ChequeRecord :=
  data.filter isAcceptedReason

/-- The threshold eligibility filter, embedded from the loop building the
eligible list in generate_commission_batch (views.py:1241-1246): keep the
records whose amount strictly exceeds the threshold. -/
def filter_by_threshold (data : List ChequeRecord) (threshold : ℚ) : List ChequeRecord :=
  data.filter (fun r => threshold < r.cheque_amount)

/-! ## Full and accepted batch generation (views.py:731-814) -/

/-- One row written per record by write_debit_entries (views.py:761): the
record side, transaction code 555, positive amount, and DESC2 of the form
CLG bank chequenumber with the bank upper-cased and space-stripped. -/
def debitEntryRow (record : ChequeRecord) : LedgerRow :=
  let maincode := record.bfd_account
  let branch_code := if 3 ≤ maincode.length then maincode.take 3 else maincode
  let pay_bank := dropChar (pyUpper record.pay_bank_name) ' '
  { branchcode := branch_code
    maincode := maincode
    trancode := "555".toList
    amount := record.cheque_amount
    lcyamount := record.cheque_amount
    desc1 := []
    desc2 := "CLG ".toList ++ pay_bank ++ ' ' :: record.cheque_number }

/-- write_debit_entries (views.py:761). -/
def write_debit_entries (data : List ChequeRecord) : List LedgerRow :=
  data.map debitEntryRow

/-- One row written per record by write_credit_entries (views.py:789): the
clearing side, transaction code 055, negated amount. -/
def creditEntryRow (clearing_account clearing_branch : Str) (record : ChequeRecord) : LedgerRow :=
  let pay_bank := dropChar (pyUpper record.pay_bank_name) ' '
  { branchcode := clearing_branch
    maincode := clearing_account
    trancode := "055".toList
    amount := -record.cheque_amount
    lcyamount := -record.cheque_amount
    desc1 := "CLG TFR ".toList ++ record.bfd_account
    desc2 := pyStrip (pay_bank ++ ' ' :: pyStrip record.pay_account) }

/-- write_credit_entries (views.py:789). -/
def write_credit_entries (data : List ChequeRecord) (clearing_account clearing_branch : Str) :
    List LedgerRow :=
  data.map (creditEntryRow clearing_account clearing_branch)

/-- generate_excel_batch (views.py:731): the debit block, in input order,
followed by the credit block in the same order. -/
def generate_excel_batch (data : List ChequeRecord) (clearing_account clearing_branch : Str) :
    List LedgerRow :=
  write_debit_entries data ++ write_credit_entries data clearing_account clearing_branch

/-! ## Commission batch generation (views.py:1240-1300) -/

/-- Fraction digits of num over den, with fuel; the denominators reachable
from decimal parsing are products of powers of 2 and 5, for which the
expansion terminates well inside the fuel. -/
def fracDigitsAux : Nat → Nat → Nat → Str
  | 0, _, _ => []
  | fuel + 1, num, den =>
    if num == 0 then []
    else Nat.digitChar (num * 10 / den) :: fracDigitsAux fuel (num * 10 % den) den

/-- Decimal rendering of a rational: whole values print with no point, as
the int conversion in the source does; fractional values print their exact
decimal expansion, which on the reachable values agrees with the shortest
float repr used by the f-string of the source. -/
def ratToDecimalStr (q : ℚ) : Str :=
  let sign : Str := if q < 0 then ['-'] else []
  let n := q.num.natAbs
  let intPart := Nat.toDigits 10 (n / q.den)
  if q.den == 1 then sign ++ intPart
  else sign ++ intPart ++ '.' :: fracDigitsAux q.den (n % q.den) q.den

/-- DESC1 of both commission blocks (views.py:1274 and 1291). -/
def eccChargeDesc (cheque_amt : ℚ) : Str :=
  "Ecc Charge Rs.".toList ++ ratToDecimalStr cheque_amt

/-- One debit-block row of the commission batch (views.py:1265-1284):
transaction code 055 against the record account for the negated commission
amount; the branch falls back to the clearing branch for accounts shorter
than 3 characters. -/
def commissionDebitRow (clearing_branch : Str) (commission_amount : ℚ)
    (record : ChequeRecord) : LedgerRow :=
  let bfd_account := record.bfd_account
  let branch_code := if 3 ≤ bfd_account.length then bfd_account.take 3 else clearing_branch
  let pay_bank := dropChar (pyUpper record.pay_bank_name) ' '
  { branchcode := branch_code
    maincode := bfd_account
    trancode := "055".toList
    amount := -commission_amount
    lcyamount := -commission_amount
    desc1 := eccChargeDesc record.cheque_amount
    desc2 := "CLG ".toList ++ pay_bank ++ ' ' :: record.cheque_number }

/-- One credit-block row of the commission batch (views.py:1287-1300):
transaction code 555 to the commission account for the positive commission
amount. -/
def commissionCreditRow (clearing_branch commission_account : Str) (commission_amount : ℚ)
    (record : ChequeRecord) : LedgerRow :=
  { branchcode := clearing_branch
    maincode := commission_account
    trancode := "555".toList
    amount := commission_amount
    lcyamount := commission_amount
    desc1 := eccChargeDesc record.cheque_amount
    desc2 := record.bfd_account }

/-- generate_commission_batch (views.py:1240-1300): records above the
threshold, one debit-block row each followed by one credit-block row each. -/
def generate_commission_batch (data : List ChequeRecord) (commission_account : Str)
    (commission_amount threshold : ℚ) (clearing_branch : Str) : List LedgerRow :=
  (filter_by_threshold data threshold).map (commissionDebitRow clearing_branch commission_amount)
    ++ (filter_by_threshold data threshold).map
        (commissionCreditRow clearing_branch commission_account commission_amount)

/-! ## Reconciliation (generate_final_batch, views.py:1106-1175) -/

/-- Failure conditions of the reconciliation core: the structure error for
unequal blocks, and the empty filtered result. -/
inductive ReconError where
  | structuralMismatch
  | noMatches
deriving Repr, DecidableEq

/-- Transaction code of a supplied ledger row: cell 2, stripped. -/
def rowTrancode (r : List Str) : Str := pyStrip (r.getD 2 [])

/-- The 555 block of a supplied ledger, in row order (views.py:1109-1115). -/
def rows555 (ledger : List (List Str)) : List (List Str) :=
  ledger.filter (fun r => rowTrancode r == "555".toList)

/-- The 055 block of a supplied ledger, in row order. -/
def rows055 (ledger : List (List Str)) : List (List Str) :=
  ledger.filter (fun r => rowTrancode r == "055".toList)

/-- Cheque number recovered from a 555 row: the last whitespace token of
cell 6, or the empty string when the cell is blank (views.py:1129-1131). -/
def recoveredCheque (row : List Str) : Str :=
  match (pySplit (pyStrip (row.getD 6 []))).getLast? with
  | some t => t
  | none => []

/-- The positional pairs of a supplied ledger: 555 row i with 055 row i. -/
def ledgerPairs (ledger : List (List Str)) : List (List Str × List Str) :=
  (rows555 ledger).zip (rows055 ledger)

/-- The filter of the reconciliation: keep a pair when the cheque number
recovered from its 555 row is in the accepted set. -/
def keptPairs (ledger : List (List Str)) (accepted : List Str) :
    List (List Str × List Str) :=
  (ledgerPairs ledger).filter (fun p => decide (recoveredCheque p.1 ∈ accepted))

/-- The reconciliation core of generate_final_batch (views.py:1106-1175):
classify rows by transaction code, fail on unequal block lengths, filter the
positional pairs by the accepted cheque-number set, fail when nothing is
kept, and otherwise emit the kept 555 block followed by the kept 055 block.
The kept rows are written out unchanged (the numeric re-formatting of cells
3 and 4 is the external ledger writer of the interface layer). -/
def generate_final_batch (ledger : List (List Str)) (accepted : List Str) :
    Except ReconError (List (List Str) × List (List Str)) :=
  if (rows555 ledger).length ≠ (rows055 ledger).length then
    .error .structuralMismatch
  else if (keptPairs ledger accepted).isEmpty then .error .noMatches
  else .ok ((keptPairs ledger accepted).map Prod.fst, (keptPairs ledger accepted).map Prod.snd)

/-! ## Concrete inputs used by counterexamples and witnesses -/

/-- Build a table row of plain (non-None) cells. -/
def mkRow (l : List String) : List Cell := l.map (fun s => some s.toList)

/-- The scenario row of the specification: a 15-cell table row carrying an
insufficient-funds cheque. -/
def specRow : List Cell :=
  mkRow ["1", "", "", "", "", "", "1234567", "255", "", "98765432109876", "",
         "CITIZE", "12345678", "50,000.00", "INSUFFICIENT FUNDS"]

/-- A table row whose amount column holds 200,000,000.00, above the stated
bound yet accepted by the primary amount path. -/
def bigRow : List Cell :=
  mkRow ["1", "", "", "", "", "", "1234567", "255", "", "98765432109876", "",
         "CITIZE", "12345678", "200,000,000.00"]

/-- A table row whose amount column holds the bare digit string 200000000,
with no thousands separator and no decimal point. -/
def amtRow : List Cell :=
  mkRow ["1", "", "", "", "", "", "1234567", "255", "", "98765432109876", "",
         "CITIZE", "12345678", "200000000"]

/-- Default record for total indexing. -/
def dummyRec : ChequeRecord :=
  { bfd_account := [], cheque_amount := 0, pay_bank_name := [], pay_account := [],
    cheque_number := [], branch_code := [], reason := [] }

/-- Default ledger row for total indexing. -/
def dummyRow : LedgerRow :=
  { branchcode := [], maincode := [], trancode := [], amount := 0, lcyamount := 0,
    desc1 := [], desc2 := [] }

/-- A concrete accepted cheque record. -/
def exRec : ChequeRecord :=
  { bfd_account := "98765432109876".toList
    cheque_amount := 50000
    pay_bank_name := "CITIZENS".toList
    pay_account := "12345678".toList
    cheque_number := "1234567".toList
    branch_code := "255".toList
    reason := "ACCEPTED".toList }

/-- A concrete record above the default commission threshold. -/
def commRec : ChequeRecord :=
  { bfd_account := "98765432109876".toList
    cheque_amount := 250000
    pay_bank_name := "CITIZENS".toList
    pay_account := "12345678".toList
    cheque_number := "1234567".toList
    branch_code := "255".toList
    reason := "ACCEPTED".toList }

/-- commRec with a different disposition reason and all other fields equal. -/
def commRecOtherReason : ChequeRecord :=
  { commRec with reason := "INSUFFICIENT FUNDS".toList }

/-- Default clearing account of the source. -/
def ca0 : Str := "9313102000".toList

/-- Default clearing branch of the source. -/
def cb0 : Str := "255".toList

/-- A 555-side ledger row referencing the given cheque number in DESC2. -/
def l555 (chq : String) : List Str :=
  ["131".toList, "13101234567890".toList, "555".toList, "50000.00".toList,
   "50000.00".toList, [], ("CLG EBL " ++ chq).toList]

/-- A 055-side ledger row tagged with the given cheque number in DESC2. -/
def l055 (chq : String) : List Str :=
  ["255".toList, "9313102000".toList, "055".toList, "-50000.00".toList,
   "-50000.00".toList, "CLG TFR 13101234567890".toList, ("EBL " ++ chq).toList]

/-- The reconciliation scenario ledger: three positional pairs carrying
cheque numbers 111111, 222222, 333333. -/
def ledger3 : List (List Str) :=
  [l555 "111111", l555 "222222", l555 "333333",
   l055 "111111", l055 "222222", l055 "333333"]

/-- The scenario accepted set containing only 222222. -/
def accepted1 : List Str := ["222222".toList]

/-- A structurally broken ledger: one 555 row and no 055 row. -/
def ledgerBad : List (List Str) := [l555 "111111"]

/-- Default commission account of the source. -/
def comAcct : Str := "9505062601".toList

/-- Two records agree on every field except the disposition reason. -/
def agreesExceptReason (a b : ChequeRecord) : Prop :=
  a.bfd_account = b.bfd_account ∧ a.cheque_amount = b.cheque_amount ∧
  a.pay_bank_name = b.pay_bank_name ∧ a.pay_account = b.pay_account ∧
  a.cheque_number = b.cheque_number ∧ a.branch_code = b.branch_code

/-- The invariant every extracted record satisfies: a 12-17 digit BFD
account, a 6-10 digit cheque number, and a strictly positive amount. -/
def mandatoryFieldInvariant (r : ChequeRecord) : Prop :=
  pyIsDigit r.bfd_account = true ∧ 12 ≤ r.bfd_account.length ∧ r.bfd_account.length ≤ 17 ∧
  pyIsDigit r.cheque_number = true ∧ 6 ≤ r.cheque_number.length ∧ r.cheque_number.length ≤ 10 ∧
  0 < r.cheque_amount

/-! ## List helper lemmas -/

theorem getD_append_lt {α : Type} (l l2 : List α) (d : α) :
    ∀ i, i < l.length → (l ++ l2).getD i d = l.getD i d := by
  induction l with
  | nil => intro i h; simp at h
  | cons a t ih =>
    intro i h
    cases i with
    | zero => rfl
    | succ n => simpa using ih n (by simpa using h)

theorem getD_append_len {α : Type} (l l2 : List α) (d : α) (i : Nat) :
    (l ++ l2).getD (l.length + i) d = l2.getD i d := by
  induction l with
  | nil => simp
  | cons a t ih => simpa [Nat.succ_add] using ih

theorem getD_map_lt {α β : Type} (f : α → β) (l : List α) (d : β) (d0 : α) :
    ∀ i, i < l.length → (l.map f).getD i d = f (l.getD i d0) := by
  induction l with
  | nil => intro i h; simp at h
  | cons a t ih =>
    intro i h
    cases i with
    | zero => rfl
    | succ n => simpa using ih n (by simpa using h)

theorem getD_mem {α : Type} (l : List α) (d : α) :
    ∀ i, i < l.length → l.getD i d ∈ l := by
  induction l with
  | nil => intro i h; simp at h
  | cons a t ih =>
    intro i h
    cases i with
    | zero => simp
    | succ n => exact List.mem_cons_of_mem a (by simpa using ih n (by simpa using h))

theorem headD_mem {α : Type} (l : List α) (d : α) (h : l ≠ []) : l.headD d ∈ l := by
  cases l with
  | nil => exact absurd rfl h
  | cons a t => simp

theorem takeBranch_eq (s : Str) : (if 3 ≤ s.length then s.take 3 else s) = s.take 3 := by
  split
  · rfl
  · next h => exact (List.take_of_length_le (by omega)).symm

/-! ## Full batch rows by position -/

theorem full_batch_getD_debit (data : List ChequeRecord) (ca cb : Str)
    (i : Nat) (h : i < data.length) :
    (generate_excel_batch data ca cb).getD i dummyRow = debitEntryRow (data.getD i dummyRec) := by
  have hlen1 : i < (write_debit_entries data).length := by
    simpa [write_debit_entries] using h
  unfold generate_excel_batch
  rw [getD_append_lt _ _ _ i hlen1]
  unfold write_debit_entries
  exact getD_map_lt _ _ _ dummyRec i h

theorem full_batch_getD_credit (data : List ChequeRecord) (ca cb : Str)
    (i : Nat) (h : i < data.length) :
    (generate_excel_batch data ca cb).getD (data.length + i) dummyRow
      = creditEntryRow ca cb (data.getD i dummyRec) := by
  unfold generate_excel_batch
  have hl : data.length = (write_debit_entries data).length := by
    simp [write_debit_entries]
  rw [hl, getD_append_len]
  unfold write_credit_entries
  exact getD_map_lt _ _ _ dummyRec i h

/-! ## Claim theorems -/

/-- Claim C1 (amended): in the full and accepted batch, each row of the
first block is the record's own side (branch code the first 3 characters of
bfd_account, main code bfd_account, amount the positive cheque amount) and
carries transaction code 555, while each row of the second block is the
caller-supplied clearing side with negated amount and carries transaction
code 055.  The claim as stated assigns 055 to the first block and 555 to
the second, which is the opposite of what the code writes. -/
theorem full_batch_block_trancodes (data : List ChequeRecord)
    (clearing_account clearing_branch : Str) (i : Nat) (h : i < data.length) :
    ((generate_excel_batch data clearing_account clearing_branch).getD i dummyRow).trancode
        = "555".toList ∧
    ((generate_excel_batch data clearing_account clearing_branch).getD i dummyRow).branchcode
        = (data.getD i dummyRec).bfd_account.take 3 ∧
    ((generate_excel_batch data clearing_account clearing_branch).getD i dummyRow).maincode
        = (data.getD i dummyRec).bfd_account ∧
    ((generate_excel_batch data clearing_account clearing_branch).getD i dummyRow).amount
        = (data.getD i dummyRec).cheque_amount ∧
    ((generate_excel_batch data clearing_account clearing_branch).getD (data.length + i) dummyRow).trancode
        = "055".toList ∧
    ((generate_excel_batch data clearing_account clearing_branch).getD (data.length + i) dummyRow).branchcode
        = clearing_branch ∧
    ((generate_excel_batch data clearing_account clearing_branch).getD (data.length + i) dummyRow).maincode
        = clearing_account ∧
    ((generate_excel_batch data clearing_account clearing_branch).getD (data.length + i) dummyRow).amount
        = -(data.getD i dummyRec).cheque_amount := by
  rw [full_batch_getD_debit data _ _ i h, full_batch_getD_credit data _ _ i h]
  refine ⟨rfl, ?_, rfl, rfl, rfl, rfl, rfl, rfl⟩
  simpa [debitEntryRow] using takeBranch_eq (data.getD i dummyRec).bfd_account

/-- Witness for C1 at a one-record batch. -/
theorem full_batch_block_trancodes_witness :
    ((generate_excel_batch [exRec] ca0 cb0).getD 0 dummyRow).trancode = "555".toList ∧
    ((generate_excel_batch [exRec] ca0 cb0).getD 0 dummyRow).branchcode
        = exRec.bfd_account.take 3 ∧
    ((generate_excel_batch [exRec] ca0 cb0).getD 0 dummyRow).maincode = exRec.bfd_account ∧
    ((generate_excel_batch [exRec] ca0 cb0).getD 0 dummyRow).amount = exRec.cheque_amount ∧
    ((generate_excel_batch [exRec] ca0 cb0).getD (1 + 0) dummyRow).trancode = "055".toList ∧
    ((generate_excel_batch [exRec] ca0 cb0).getD (1 + 0) dummyRow).branchcode = cb0 ∧
    ((generate_excel_batch [exRec] ca0 cb0).getD (1 + 0) dummyRow).maincode = ca0 ∧
    ((generate_excel_batch [exRec] ca0 cb0).getD (1 + 0) dummyRow).amount
        = -exRec.cheque_amount :=
  full_batch_block_trancodes [exRec] ca0 cb0 0 (by decide)

/-- Counterexample to C1 as stated: for a concrete one-record input, the
row of the first block is the record's own side yet carries transaction
code 555, not 055, and the second-block row carries 055, not 555. -/
theorem full_batch_block_trancodes_cx :
    ((generate_excel_batch [exRec] ca0 cb0).getD 0 dummyRow).maincode = exRec.bfd_account ∧
    ((generate_excel_batch [exRec] ca0 cb0).getD 0 dummyRow).amount = exRec.cheque_amount ∧
    ((generate_excel_batch [exRec] ca0 cb0).getD 0 dummyRow).trancode ≠ "055".toList ∧
    ((generate_excel_batch [exRec] ca0 cb0).getD 1 dummyRow).trancode ≠ "555".toList := by
  decide

/-- Claim C3: the full and accepted batch emits exactly twice as many rows
as records, and for every index below the record count, row i and row N + i
are built from the same source record, with amounts that are exact
negatives of each other. -/
theorem full_batch_pairing (data : List ChequeRecord)
    (clearing_account clearing_branch : Str) :
    (generate_excel_batch data clearing_account clearing_branch).length = 2 * data.length ∧
    ∀ i, i < data.length →
      (generate_excel_batch data clearing_account clearing_branch).getD i dummyRow
          = debitEntryRow (data.getD i dummyRec) ∧
      (generate_excel_batch data clearing_account clearing_branch).getD (data.length + i) dummyRow
          = creditEntryRow clearing_account clearing_branch (data.getD i dummyRec) ∧
      ((generate_excel_batch data clearing_account clearing_branch).getD i dummyRow).amount
          = -((generate_excel_batch data clearing_account clearing_branch).getD
                (data.length + i) dummyRow).amount := by
  constructor
  · simp [generate_excel_batch, write_debit_entries, write_credit_entries]
    omega
  · intro i h
    refine ⟨full_batch_getD_debit data _ _ i h, full_batch_getD_credit data _ _ i h, ?_⟩
    rw [full_batch_getD_debit data _ _ i h, full_batch_getD_credit data _ _ i h]
    simp [debitEntryRow, creditEntryRow]

/-- Witness for C3 at a one-record batch. -/
theorem full_batch_pairing_witness :
    (generate_excel_batch [exRec] ca0 cb0).length = 2 * 1 ∧
    (generate_excel_batch [exRec] ca0 cb0).getD 0 dummyRow = debitEntryRow exRec ∧
    (generate_excel_batch [exRec] ca0 cb0).getD (1 + 0) dummyRow
        = creditEntryRow ca0 cb0 exRec ∧
    ((generate_excel_batch [exRec] ca0 cb0).getD 0 dummyRow).amount
        = -((generate_excel_batch [exRec] ca0 cb0).getD (1 + 0) dummyRow).amount := by
  obtain ⟨h1, h2⟩ := full_batch_pairing [exRec] ca0 cb0
  obtain ⟨a, b, c⟩ := h2 0 (by decide)
  exact ⟨h1, a, b, c⟩

/-- Claim C8 (amended): DESC2 of the record-side row of the full and
accepted batch is CLG, a space, the bank name upper-cased with spaces
stripped, then a further space before the cheque number; the claim as
stated omits that second space. -/
theorem debit_desc2_format (data : List ChequeRecord) (ca cb : Str)
    (i : Nat) (h : i < data.length) :
    ((generate_excel_batch data ca cb).getD i dummyRow).desc2
      = "CLG ".toList ++ dropChar (pyUpper ((data.getD i dummyRec).pay_bank_name)) ' '
          ++ ' ' :: (data.getD i dummyRec).cheque_number := by
  rw [full_batch_getD_debit data ca cb i h]
  simp [debitEntryRow]

/-- Witness for C8 at a one-record batch. -/
theorem debit_desc2_format_witness :
    ((generate_excel_batch [exRec] ca0 cb0).getD 0 dummyRow).desc2
      = "CLG ".toList ++ dropChar (pyUpper exRec.pay_bank_name) ' '
          ++ ' ' :: exRec.cheque_number :=
  debit_desc2_format [exRec] ca0 cb0 0 (by decide)

/-- Counterexample to C8 as stated: at a concrete record the emitted DESC2
is CLG CITIZENS 1234567, which differs from the claimed concatenation
without a space between bank name and cheque number. -/
theorem debit_desc2_format_cx :
    ((generate_excel_batch [exRec] ca0 cb0).getD 0 dummyRow).desc2
        = "CLG CITIZENS 1234567".toList ∧
    ((generate_excel_batch [exRec] ca0 cb0).getD 0 dummyRow).desc2
        ≠ "CLG ".toList ++ "CITIZENS".toList ++ "1234567".toList := by
  decide

/-- Claim C9: keeping only accepted-reason records and keeping only records
above the threshold commute: both orders produce the same record list, and
in particular the same set of records. -/
theorem filters_commute (data : List ChequeRecord) (threshold : ℚ) :
    filter_accepted_cheques (filter_by_threshold data threshold) =
      filter_by_threshold (filter_accepted_cheques data) threshold := by
  unfold filter_accepted_cheques filter_by_threshold
  induction data with
  | nil => rfl
  | cons r t ih =>
    by_cases h1 : isAcceptedReason r = true <;>
      by_cases h2 : threshold < r.cheque_amount <;>
        simp [List.filter_cons, h1, h2, ih]

/-- Claim C5: the reconciliation core returns the structural-mismatch error
exactly when the 555 and 055 blocks of the supplied ledger have different
lengths, and in that situation it never returns the no-matches result. -/
theorem reconciliation_structural_mismatch (ledger : List (List Str)) (accepted : List Str) :
    (generate_final_batch ledger accepted = .error .structuralMismatch ↔
      (rows555 ledger).length ≠ (rows055 ledger).length) ∧
    ((rows555 ledger).length ≠ (rows055 ledger).length →
      generate_final_batch ledger accepted ≠ .error .noMatches) := by
  by_cases h : (rows555 ledger).length = (rows055 ledger).length
  · have hnn : ¬ (rows555 ledger).length ≠ (rows055 ledger).length := fun hne => hne h
    have hg : generate_final_batch ledger accepted =
        (if (keptPairs ledger accepted).isEmpty then Except.error ReconError.noMatches
         else Except.ok ((keptPairs ledger accepted).map Prod.fst,
                         (keptPairs ledger accepted).map Prod.snd)) := by
      unfold generate_final_batch
      rw [if_neg hnn]
    constructor
    · constructor
      · intro he
        rw [hg] at he
        split at he <;> exact absurd he (by simp)
      · intro hne
        exact absurd h hne
    · intro hne
      exact absurd h hne
  · have hg : generate_final_batch ledger accepted = Except.error ReconError.structuralMismatch := by
      unfold generate_final_batch
      rw [if_pos h]
    refine ⟨⟨fun _ => h, fun _ => hg⟩, fun _ => ?_⟩
    rw [hg]
    intro he
    exact absurd he (by simp)

/-- Witness for C5 on a concrete mismatched ledger: one 555 row against
zero 055 rows yields the structural error and not the no-matches error. -/
theorem reconciliation_structural_mismatch_witness :
    generate_final_batch ledgerBad accepted1 = .error .structuralMismatch ∧
    generate_final_batch ledgerBad accepted1 ≠ .error .noMatches := by
  obtain ⟨h1, h2⟩ := reconciliation_structural_mismatch ledgerBad accepted1
  exact ⟨h1.mpr (by decide), h2 (by decide)⟩

/-! ## Commission batch rows by position -/

theorem commission_getD_debit (data : List ChequeRecord) (commission_account : Str)
    (commission_amount threshold : ℚ) (clearing_branch : Str)
    (i : Nat) (h : i < (filter_by_threshold data threshold).length) :
    (generate_commission_batch data commission_account commission_amount threshold
        clearing_branch).getD i dummyRow
      = commissionDebitRow clearing_branch commission_amount
          ((filter_by_threshold data threshold).getD i dummyRec) := by
  have hlen1 : i < ((filter_by_threshold data threshold).map
      (commissionDebitRow clearing_branch commission_amount)).length := by
    simpa using h
  unfold generate_commission_batch
  rw [getD_append_lt _ _ _ i hlen1]
  exact getD_map_lt _ _ _ dummyRec i h

theorem commission_getD_credit (data : List ChequeRecord) (commission_account : Str)
    (commission_amount threshold : ℚ) (clearing_branch : Str)
    (i : Nat) (h : i < (filter_by_threshold data threshold).length) :
    (generate_commission_batch data commission_account commission_amount threshold
        clearing_branch).getD ((filter_by_threshold data threshold).length + i) dummyRow
      = commissionCreditRow clearing_branch commission_account commission_amount
          ((filter_by_threshold data threshold).getD i dummyRec) := by
  unfold generate_commission_batch
  have hl : (filter_by_threshold data threshold).length
      = ((filter_by_threshold data threshold).map
          (commissionDebitRow clearing_branch commission_amount)).length := by
    simp
  rw [hl, getD_append_len]
  exact getD_map_lt _ _ _ dummyRec i h

/-- Claim C6: the commission batch is built from exactly the records whose
amount strictly exceeds the threshold; per eligible record it emits one 055
row debiting the record's own account (branch the first 3 characters of the
BFD account) for the negated commission amount, and one 555 row crediting
the commission account for the positive commission amount.  The hypothesis
that BFD accounts have at least 3 characters always holds for extracted
records, whose accounts have 12 to 17 digits. -/
theorem commission_batch_spec (data : List ChequeRecord) (commission_account : Str)
    (commission_amount threshold : ℚ) (clearing_branch : Str)
    (hb : ∀ r ∈ data, 3 ≤ r.bfd_account.length) :
    (∀ r, r ∈ filter_by_threshold data threshold ↔ r ∈ data ∧ threshold < r.cheque_amount) ∧
    (generate_commission_batch data commission_account commission_amount threshold
        clearing_branch).length = 2 * (filter_by_threshold data threshold).length ∧
    ∀ i, i < (filter_by_threshold data threshold).length →
      ((generate_commission_batch data commission_account commission_amount threshold
          clearing_branch).getD i dummyRow).trancode = "055".toList ∧
      ((generate_commission_batch data commission_account commission_amount threshold
          clearing_branch).getD i dummyRow).maincode
        = ((filter_by_threshold data threshold).getD i dummyRec).bfd_account ∧
      ((generate_commission_batch data commission_account commission_amount threshold
          clearing_branch).getD i dummyRow).branchcode
        = ((filter_by_threshold data threshold).getD i dummyRec).bfd_account.take 3 ∧
      ((generate_commission_batch data commission_account commission_amount threshold
          clearing_branch).getD i dummyRow).amount = -commission_amount ∧
      ((generate_commission_batch data commission_account commission_amount threshold
          clearing_branch).getD ((filter_by_threshold data threshold).length + i)
            dummyRow).trancode = "555".toList ∧
      ((generate_commission_batch data commission_account commission_amount threshold
          clearing_branch).getD ((filter_by_threshold data threshold).length + i)
            dummyRow).maincode = commission_account ∧
      ((generate_commission_batch data commission_account commission_amount threshold
          clearing_branch).getD ((filter_by_threshold data threshold).length + i)
            dummyRow).amount = commission_amount := by
  refine ⟨?_, ?_, ?_⟩
  · intro r
    simp [filter_by_threshold, List.mem_filter]
  · simp [generate_commission_batch]
    omega
  · intro i h
    have hrec : (filter_by_threshold data threshold).getD i dummyRec ∈ data := by
      have hmem := getD_mem (filter_by_threshold data threshold) dummyRec i h
      exact (List.mem_filter.mp hmem).1
    have h3 : 3 ≤ ((filter_by_threshold data threshold).getD i dummyRec).bfd_account.length :=
      hb _ hrec
    rw [commission_getD_debit data commission_account commission_amount threshold
          clearing_branch i h,
        commission_getD_credit data commission_account commission_amount threshold
          clearing_branch i h]
    refine ⟨rfl, rfl, ?_, rfl, rfl, rfl, rfl⟩
    simp only [commissionDebitRow]
    rw [if_pos h3]

/-- Witness for C6 at the scenario input: threshold 200000, one record of
amount 250000, commission 15. -/
theorem commission_batch_spec_witness :
    (commRec ∈ filter_by_threshold [commRec] 200000 ↔
      commRec ∈ [commRec] ∧ (200000 : ℚ) < commRec.cheque_amount) ∧
    (generate_commission_batch [commRec] comAcct 15 200000 cb0).length
        = 2 * (filter_by_threshold [commRec] 200000).length ∧
    ((generate_commission_batch [commRec] comAcct 15 200000 cb0).getD 0 dummyRow).trancode
        = "055".toList ∧
    ((generate_commission_batch [commRec] comAcct 15 200000 cb0).getD 0 dummyRow).maincode
        = ((filter_by_threshold [commRec] 200000).getD 0 dummyRec).bfd_account ∧
    ((generate_commission_batch [commRec] comAcct 15 200000 cb0).getD 0 dummyRow).branchcode
        = ((filter_by_threshold [commRec] 200000).getD 0 dummyRec).bfd_account.take 3 ∧
    ((generate_commission_batch [commRec] comAcct 15 200000 cb0).getD 0 dummyRow).amount
        = -(15 : ℚ) ∧
    ((generate_commission_batch [commRec] comAcct 15 200000 cb0).getD
        ((filter_by_threshold [commRec] 200000).length + 0) dummyRow).trancode
        = "555".toList ∧
    ((generate_commission_batch [commRec] comAcct 15 200000 cb0).getD
        ((filter_by_threshold [commRec] 200000).length + 0) dummyRow).maincode = comAcct ∧
    ((generate_commission_batch [commRec] comAcct 15 200000 cb0).getD
        ((filter_by_threshold [commRec] 200000).length + 0) dummyRow).amount = (15 : ℚ) := by
  obtain ⟨m, hlen, hpos⟩ :=
    commission_batch_spec [commRec] comAcct 15 200000 cb0 (by decide)
  obtain ⟨a, b, c, d, e, f, g⟩ := hpos 0 (by decide)
  exact ⟨m commRec, hlen, a, b, c, d, e, f, g⟩

/-! ## Reason noninterference for the commission batch -/

theorem commission_maps_eq_of_rel (commission_account : Str)
    (commission_amount threshold : ℚ) (clearing_branch : Str)
    {data data2 : List ChequeRecord} (h : List.Forall₂ agreesExceptReason data data2) :
    (filter_by_threshold data threshold).map
        (commissionDebitRow clearing_branch commission_amount)
      = (filter_by_threshold data2 threshold).map
          (commissionDebitRow clearing_branch commission_amount) ∧
    (filter_by_threshold data threshold).map
        (commissionCreditRow clearing_branch commission_account commission_amount)
      = (filter_by_threshold data2 threshold).map
          (commissionCreditRow clearing_branch commission_account commission_amount) := by
  induction h with
  | nil => exact ⟨rfl, rfl⟩
  | @cons a b l1 l2 hab htl ih =>
    obtain ⟨e1, e2, e3, e4, e5, e6⟩ := hab
    by_cases hc : threshold < a.cheque_amount
    · have hc2 : threshold < b.cheque_amount := by rw [← e2]; exact hc
      have hdrow : commissionDebitRow clearing_branch commission_amount a
          = commissionDebitRow clearing_branch commission_amount b := by
        unfold commissionDebitRow
        rw [e1, e2, e3, e5]
      have hcrow : commissionCreditRow clearing_branch commission_account commission_amount a
          = commissionCreditRow clearing_branch commission_account commission_amount b := by
        unfold commissionCreditRow
        rw [e1, e2]
      constructor
      · simp only [filter_by_threshold] at ih ⊢
        rw [List.filter_cons_of_pos (by simpa using hc),
            List.filter_cons_of_pos (by simpa using hc2),
            List.map_cons, List.map_cons, hdrow, ih.1]
      · simp only [filter_by_threshold] at ih ⊢
        rw [List.filter_cons_of_pos (by simpa using hc),
            List.filter_cons_of_pos (by simpa using hc2),
            List.map_cons, List.map_cons, hcrow, ih.2]
    · have hc2 : ¬ threshold < b.cheque_amount := by rw [← e2]; exact hc
      constructor
      · simp only [filter_by_threshold] at ih ⊢
        rw [List.filter_cons_of_neg (by simpa using hc),
            List.filter_cons_of_neg (by simpa using hc2), ih.1]
      · simp only [filter_by_threshold] at ih ⊢
        rw [List.filter_cons_of_neg (by simpa using hc),
            List.filter_cons_of_neg (by simpa using hc2), ih.2]

/-- Claim C10: the commission batch generator never reads the reason field:
two inputs agreeing on every field but the reason produce identical
batches, for all commission parameters. -/
theorem commission_reason_noninterference (data data2 : List ChequeRecord)
    (commission_account : Str) (commission_amount threshold : ℚ) (clearing_branch : Str)
    (h : List.Forall₂ agreesExceptReason data data2) :
    generate_commission_batch data commission_account commission_amount threshold clearing_branch
      = generate_commission_batch data2 commission_account commission_amount threshold
          clearing_branch := by
  obtain ⟨h1, h2⟩ :=
    commission_maps_eq_of_rel commission_account commission_amount threshold clearing_branch h
  unfold generate_commission_batch
  rw [h1, h2]

/-- Witness for C10: one record with reason ACCEPTED against the same
record with reason INSUFFICIENT FUNDS produce the same commission batch. -/
theorem commission_reason_noninterference_witness :
    generate_commission_batch [commRec] comAcct 15 200000 cb0
      = generate_commission_batch [commRecOtherReason] comAcct 15 200000 cb0 :=
  commission_reason_noninterference [commRec] [commRecOtherReason] comAcct 15 200000 cb0
    (List.Forall₂.cons ⟨rfl, rfl, rfl, rfl, rfl, rfl⟩ List.Forall₂.nil)

/-! ## Extractor invariants -/

theorem bfdOk_spec {s : Str} (h : bfdOk s = true) :
    pyIsDigit s = true ∧ 12 ≤ s.length ∧ s.length ≤ 17 := by
  unfold bfdOk at h
  simp only [Bool.and_eq_true, decide_eq_true_eq] at h
  exact ⟨h.1.1, h.1.2, h.2⟩

theorem chqOk_spec {s : Str} (h : chqOk s = true) :
    pyIsDigit s = true ∧ 6 ≤ s.length ∧ s.length ≤ 10 := by
  unfold chqOk at h
  simp only [Bool.and_eq_true, decide_eq_true_eq] at h
  exact ⟨h.1.1, h.1.2, h.2⟩

theorem mergeSort_head?_mem {α : Type} {le : α → α → Bool} {l : List α} {c : α}
    (h : (List.mergeSort l le).head? = some c) : c ∈ l := by
  rcases List.head?_eq_some_iff.mp h with ⟨ys, hys⟩
  have hm : c ∈ List.mergeSort l le := by
    rw [hys]
    exact List.mem_cons_self _ _
  exact List.mem_mergeSort.mp hm

theorem bfdCandidates_val {row : List Cell} {c : Nat × Nat × Str}
    (h : c ∈ bfdCandidates row) : bfdOk c.2.2 = true := by
  unfold bfdCandidates at h
  rcases List.mem_filterMap.mp h with ⟨ic, _, hf⟩
  cases hcv : cellVal ic.2 with
  | none => rw [hcv] at hf; exact Option.noConfusion hf
  | some cc =>
    rw [hcv] at hf
    dsimp only at hf
    by_cases hb : bfdOk (pyStrip cc) = true
    · rw [if_pos hb] at hf
      injection hf with hf
      rw [← hf]
      exact hb
    · rw [if_neg hb] at hf
      exact Option.noConfusion hf

theorem extract_bfd_account_spec {row : List Cell} {s : Str}
    (h : extract_bfd_account row = some s) : bfdOk s = true := by
  unfold extract_bfd_account at h
  cases hp : extract_bfd_account_primary row with
  | some t =>
    rw [hp] at h
    injection h with h
    subst h
    unfold extract_bfd_account_primary at hp
    cases hg : getCell row 9 with
    | none => rw [hg] at hp; exact Option.noConfusion hp
    | some c =>
      rw [hg] at hp
      dsimp only at hp
      by_cases hb : bfdOk (pyStrip c) = true
      · rw [if_pos hb] at hp
        injection hp with hp
        rw [← hp]
        exact hb
      · rw [if_neg hb] at hp
        exact Option.noConfusion hp
  | none =>
    rw [hp] at h
    cases hh : (List.mergeSort (bfdCandidates row) bfdKeyGe).head? with
    | none => rw [hh] at h; exact Option.noConfusion h
    | some c =>
      rw [hh] at h
      injection h with h
      subst h
      exact bfdCandidates_val (mergeSort_head?_mem hh)

theorem chequeScan_spec {row : List Cell} {s : Str}
    (h : chequeScan row = some s) : chqOk s = true := by
  unfold chequeScan at h
  rcases List.exists_of_findSome?_eq_some h with ⟨cell, _, hf⟩
  cases hcv : cellVal cell with
  | none => rw [hcv] at hf; exact Option.noConfusion hf
  | some c =>
    rw [hcv] at hf
    dsimp only at hf
    by_cases hb : chqOk (pyStrip c) = true
    · rw [if_pos hb] at hf
      injection hf with hf
      rw [← hf]
      exact hb
    · rw [if_neg hb] at hf
      exact Option.noConfusion hf

theorem extract_cheque_number_spec {row : List Cell} {s : Str}
    (h : extract_cheque_number row = some s) : chqOk s = true := by
  unfold extract_cheque_number at h
  cases hg : getCell row 6 with
  | none => rw [hg] at h; exact chequeScan_spec h
  | some c =>
    rw [hg] at h
    dsimp only at h
    by_cases hb : chqOk (pyStrip c) = true
    · rw [if_pos hb] at h
      injection h with h
      rw [← h]
      exact hb
    · rw [if_neg hb] at h
      exact chequeScan_spec h

theorem extract_amount_primary_spec {row : List Cell} {a : ℚ}
    (h : extract_amount_primary row = some a) :
    0 < a ∧ ∃ c, getCell row 13 = some c ∧
      (hasChar (pyStrip c) ',' || hasChar (pyStrip c) '.' || pyIsDigit (pyStrip c)) = true ∧
      pyFloat? (dropChar (pyStrip c) ',') = some a := by
  unfold extract_amount_primary at h
  cases hg : getCell row 13 with
  | none => rw [hg] at h; exact Option.noConfusion h
  | some c =>
    rw [hg] at h
    dsimp only at h
    by_cases h1 : (hasChar (pyStrip c) ',' || hasChar (pyStrip c) '.' || pyIsDigit (pyStrip c))
        = true
    · rw [if_pos h1] at h
      by_cases h2 : pyIsDigit ((dropChar (pyStrip c) ',').filter
          (fun ch => ch != '.' && ch != '-')) = true
      · rw [if_pos h2] at h
        cases hpf : pyFloat? (dropChar (pyStrip c) ',') with
        | none => rw [hpf] at h; exact Option.noConfusion h
        | some amt =>
          rw [hpf] at h
          dsimp only at h
          by_cases h3 : 0 < amt
          · rw [if_pos h3] at h
            injection h with h
            subst h
            exact ⟨h3, c, rfl, h1, hpf⟩
          · rw [if_neg h3] at h
            exact Option.noConfusion h
      · rw [if_neg h2] at h
        exact Option.noConfusion h
    · rw [if_neg h1] at h
      exact Option.noConfusion h

theorem amountScanCell_spec {cell : Cell} {a : ℚ}
    (h : amountScanCell cell = some a) : 0 < a ∧ a < 100000000 := by
  unfold amountScanCell at h
  cases hcv : cellVal cell with
  | none => rw [hcv] at h; exact Option.noConfusion h
  | some c =>
    rw [hcv] at h
    dsimp only at h
    by_cases h1 : (hasChar (pyStrip c) ',' || hasChar (pyStrip c) '.') = true
    · rw [if_pos h1] at h
      by_cases h2 : pyIsDigit ((dropChar (pyStrip c) ',').filter
          (fun ch => ch != '.' && ch != '-')) = true
      · rw [if_pos h2] at h
        cases hpf : pyFloat? (dropChar (pyStrip c) ',') with
        | none => rw [hpf] at h; exact Option.noConfusion h
        | some amt =>
          rw [hpf] at h
          dsimp only at h
          by_cases h3 : 0 < amt ∧ amt < 100000000
          · rw [if_pos h3] at h
            injection h with h
            subst h
            exact h3
          · rw [if_neg h3] at h
            exact Option.noConfusion h
      · rw [if_neg h2] at h
        exact Option.noConfusion h
    · rw [if_neg h1] at h
      by_cases h4 : (pyIsDigit (pyStrip c) && decide (3 ≤ (pyStrip c).length)) = true
      · rw [if_pos h4] at h
        by_cases h5 : 0 < (digitsToNat (pyStrip c) : ℚ) ∧ (digitsToNat (pyStrip c) : ℚ) < 100000000
        · rw [if_pos h5] at h
          injection h with h
          subst h
          exact h5
        · rw [if_neg h5] at h
          exact Option.noConfusion h
      · rw [if_neg h4] at h
        exact Option.noConfusion h

theorem extract_amount_pos {row : List Cell} {a : ℚ}
    (h : extract_amount row = some a) : 0 < a := by
  unfold extract_amount at h
  cases hp : extract_amount_primary row with
  | some b =>
    rw [hp] at h
    injection h with h
    subst h
    exact (extract_amount_primary_spec hp).1
  | none =>
    rw [hp] at h
    rcases List.exists_of_findSome?_eq_some h with ⟨cell, _, hf⟩
    exact (amountScanCell_spec hf).1

theorem bfdPartsCandidates_val {parts : List Str} {c : Nat × Str}
    (h : c ∈ parts.filterMap (fun p => if bfdOk p then some (p.length, p) else none)) :
    bfdOk c.2 = true := by
  rcases List.mem_filterMap.mp h with ⟨p, _, hf⟩
  by_cases hb : bfdOk p = true
  · rw [if_pos hb] at hf
    injection hf with hf
    rw [← hf]
    exact hb
  · rw [if_neg hb] at hf
    exact Option.noConfusion hf

theorem extract_bfd_account_from_parts_spec {parts : List Str} {s : Str}
    (h : extract_bfd_account_from_parts parts = some s) : bfdOk s = true := by
  unfold extract_bfd_account_from_parts at h
  dsimp only at h
  cases hh : (List.mergeSort (parts.filterMap fun p =>
      if bfdOk p then some (p.length, p) else none) bfdPartsGe).head? with
  | none => rw [hh] at h; exact Option.noConfusion h
  | some c =>
    rw [hh] at h
    injection h with h
    subst h
    exact bfdPartsCandidates_val (mergeSort_head?_mem hh)

theorem extract_cheque_number_from_parts_spec {parts : List Str} {s : Str}
    (h : extract_cheque_number_from_parts parts = some s) : chqOk s = true := by
  unfold extract_cheque_number_from_parts at h
  rcases List.exists_of_findSome?_eq_some h with ⟨p, _, hf⟩
  by_cases hb : chqOk p = true
  · rw [if_pos hb] at hf
    injection hf with hf
    rw [← hf]
    exact hb
  · rw [if_neg hb] at hf
    exact Option.noConfusion hf

theorem amountPartPass1_spec {p : Str} {a : ℚ}
    (h : amountPartPass1 p = some a) : 0 < a ∧ a < 100000000 := by
  unfold amountPartPass1 at h
  dsimp only at h
  split at h
  · split at h
    · cases hpf : pyFloat? (dropChar p ',') with
      | none => rw [hpf] at h; exact Option.noConfusion h
      | some amt =>
        rw [hpf] at h
        dsimp only at h
        split at h
        · rename_i h3
          injection h with h
          subst h
          exact h3
        · exact Option.noConfusion h
    · exact Option.noConfusion h
  · exact Option.noConfusion h

theorem amountPartPass2_spec {p : Str} {a : ℚ}
    (h : amountPartPass2 p = some a) : 0 < a ∧ a < 100000000 := by
  unfold amountPartPass2 at h
  dsimp only at h
  split at h
  · split at h
    · rename_i h5
      injection h with h
      subst h
      exact h5
    · exact Option.noConfusion h
  · exact Option.noConfusion h

theorem extract_amount_from_parts_spec {parts : List Str} {a : ℚ}
    (h : extract_amount_from_parts parts = some a) : 0 < a ∧ a < 100000000 := by
  unfold extract_amount_from_parts at h
  cases h1 : parts.reverse.findSome? amountPartPass1 with
  | some b =>
    rw [h1] at h
    injection h with h
    subst h
    rcases List.exists_of_findSome?_eq_some h1 with ⟨p, _, hf⟩
    exact amountPartPass1_spec hf
  | none =>
    rw [h1] at h
    rcases List.exists_of_findSome?_eq_some h with ⟨p, _, hf⟩
    exact amountPartPass2_spec hf

theorem processTableRow_fields {fixes : List (Str × Str)} {row : List Cell} {r : ChequeRecord}
    (h : processTableRow fixes row = some r) :
    ∃ bfd amt chq, extract_bfd_account row = some bfd ∧ extract_amount row = some amt ∧
      extract_cheque_number row = some chq ∧
      r.bfd_account = bfd ∧ r.cheque_amount = amt ∧ r.cheque_number = chq := by
  unfold processTableRow at h
  split at h
  · exact Option.noConfusion h
  split at h
  all_goals
    dsimp only at h
    split at h
    · exact Option.noConfusion h
    split at h
    · exact Option.noConfusion h
    cases hb : extract_bfd_account row with
    | none => rw [hb] at h; exact Option.noConfusion h
    | some bfd =>
      cases ha : extract_amount row with
      | none => rw [hb, ha] at h; exact Option.noConfusion h
      | some amt =>
        cases hc : extract_cheque_number row with
        | none => rw [hb, ha, hc] at h; exact Option.noConfusion h
        | some chq =>
          rw [hb, ha, hc] at h
          injection h with h
          subst h
          exact ⟨bfd, amt, chq, rfl, rfl, rfl, rfl, rfl, rfl⟩

theorem processTextLine_fields {fixes : List (Str × Str)} {all_lines : List Str}
    {idx : Nat} {line : Str} {r : ChequeRecord}
    (h : processTextLine fixes all_lines idx line = some r) :
    ∃ bfd amt chq, extract_bfd_account_from_parts (pySplit line) = some bfd ∧
      extract_amount_from_parts (pySplit line) = some amt ∧
      extract_cheque_number_from_parts (pySplit line) = some chq ∧
      r.bfd_account = bfd ∧ r.cheque_amount = amt ∧ r.cheque_number = chq := by
  unfold processTextLine at h
  dsimp only at h
  split at h
  · exact Option.noConfusion h
  · split at h
    · exact Option.noConfusion h
    · cases hb : extract_bfd_account_from_parts (pySplit line) with
      | none => rw [hb] at h; exact Option.noConfusion h
      | some bfd =>
        cases ha : extract_amount_from_parts (pySplit line) with
        | none => rw [hb, ha] at h; exact Option.noConfusion h
        | some amt =>
          cases hc : extract_cheque_number_from_parts (pySplit line) with
          | none => rw [hb, ha, hc] at h; exact Option.noConfusion h
          | some chq =>
            rw [hb, ha, hc] at h
            injection h with h
            subst h
            exact ⟨bfd, amt, chq, rfl, rfl, rfl, rfl, rfl, rfl⟩

theorem extract_from_table_invariant {tables : List (List (List Cell))}
    {fixes : List (Str × Str)} {r : ChequeRecord}
    (h : r ∈ extract_from_table tables fixes) : mandatoryFieldInvariant r := by
  unfold extract_from_table at h
  rcases List.mem_flatten.mp h with ⟨recs, hrecs, hr⟩
  rcases List.mem_map.mp hrecs with ⟨table, _, htab⟩
  subst htab
  rcases List.mem_filterMap.mp hr with ⟨row, _, hrow⟩
  rcases processTableRow_fields hrow with ⟨bfd, amt, chq, h1, h2, h3, e1, e2, e3⟩
  have hb := bfdOk_spec (extract_bfd_account_spec h1)
  have hc := chqOk_spec (extract_cheque_number_spec h3)
  have ha := extract_amount_pos h2
  unfold mandatoryFieldInvariant
  exact ⟨by rw [e1]; exact hb.1, by rw [e1]; exact hb.2.1, by rw [e1]; exact hb.2.2,
         by rw [e3]; exact hc.1, by rw [e3]; exact hc.2.1, by rw [e3]; exact hc.2.2,
         by rw [e2]; exact ha⟩

theorem extract_from_text_invariant {all_lines : List Str} {fixes : List (Str × Str)}
    {r : ChequeRecord} (h : r ∈ extract_from_text all_lines fixes) :
    mandatoryFieldInvariant r := by
  unfold extract_from_text at h
  rcases List.mem_filterMap.mp h with ⟨il, _, hline⟩
  rcases processTextLine_fields hline with ⟨bfd, amt, chq, h1, h2, h3, e1, e2, e3⟩
  have hb := bfdOk_spec (extract_bfd_account_from_parts_spec h1)
  have hc := chqOk_spec (extract_cheque_number_from_parts_spec h3)
  have ha := (extract_amount_from_parts_spec h2).1
  unfold mandatoryFieldInvariant
  exact ⟨by rw [e1]; exact hb.1, by rw [e1]; exact hb.2.1, by rw [e1]; exact hb.2.2,
         by rw [e3]; exact hc.1, by rw [e3]; exact hc.2.1, by rw [e3]; exact hc.2.2,
         by rw [e2]; exact ha⟩

theorem processTableRow_none_of_missing {fixes : List (Str × Str)} {row : List Cell}
    (h : extract_bfd_account row = none ∨ extract_amount row = none ∨
      extract_cheque_number row = none) :
    processTableRow fixes row = none := by
  unfold processTableRow
  split
  · rfl
  split
  all_goals
    dsimp only
    split
    · rfl
    split
    · rfl
    rcases h with h | h | h
    · rw [h]
    · cases hb : extract_bfd_account row with
      | none => rfl
      | some bfd => rw [h]
    · cases hb : extract_bfd_account row with
      | none => rfl
      | some bfd =>
        cases ha : extract_amount row with
        | none => rfl
        | some amt => rw [h]

theorem processTextLine_none_of_missing {fixes : List (Str × Str)} {all_lines : List Str}
    {idx : Nat} {line : Str}
    (h : extract_bfd_account_from_parts (pySplit line) = none ∨
      extract_amount_from_parts (pySplit line) = none ∨
      extract_cheque_number_from_parts (pySplit line) = none) :
    processTextLine fixes all_lines idx line = none := by
  unfold processTextLine
  dsimp only
  split
  · rfl
  · split
    · rfl
    · rcases h with h | h | h
      · rw [h]
      · cases hb : extract_bfd_account_from_parts (pySplit line) with
        | none => rfl
        | some bfd => rw [h]
      · cases hb : extract_bfd_account_from_parts (pySplit line) with
        | none => rfl
        | some bfd =>
          cases ha : extract_amount_from_parts (pySplit line) with
          | none => rfl
          | some amt => rw [h]

/-- Claim C2 (amended): every record emitted by table-mode or text-mode
extraction has a bfd_account of 12 to 17 digits, a cheque_number of 6 to 10
digits, and a strictly positive cheque_amount, and a row or line on which
any of the three mandatory extractors fails produces no record.  The
claimed upper bound of 100,000,000 on the amount does not hold: the primary
amount column is accepted with only a positivity check. -/
theorem extraction_invariant :
    (∀ tables fixes r, r ∈ extract_from_table tables fixes → mandatoryFieldInvariant r) ∧
    (∀ all_lines fixes r, r ∈ extract_from_text all_lines fixes → mandatoryFieldInvariant r) ∧
    (∀ fixes row, (extract_bfd_account row = none ∨ extract_amount row = none ∨
        extract_cheque_number row = none) → processTableRow fixes row = none) ∧
    (∀ fixes all_lines idx line, (extract_bfd_account_from_parts (pySplit line) = none ∨
        extract_amount_from_parts (pySplit line) = none ∨
        extract_cheque_number_from_parts (pySplit line) = none) →
        processTextLine fixes all_lines idx line = none) :=
  ⟨fun _ _ _ h => extract_from_table_invariant h,
   fun _ _ _ h => extract_from_text_invariant h,
   fun _ _ h => processTableRow_none_of_missing h,
   fun _ _ _ _ h => processTextLine_none_of_missing h⟩

/-- Witness for C2: the record extracted from the scenario table row
satisfies the amended invariant. -/
theorem extraction_invariant_witness :
    mandatoryFieldInvariant ((extract_from_table [[specRow]] BANK_NAME_FIXES).headD dummyRec) :=
  extraction_invariant.1 [[specRow]] BANK_NAME_FIXES _
    (headD_mem _ _ (by decide))

/-- Counterexample to C2 as stated: a concrete table row whose amount
column holds 200,000,000.00 yields a record whose cheque_amount is not
below 100,000,000. -/
theorem extraction_invariant_cx :
    ∃ r, r ∈ extract_from_table [[bigRow]] BANK_NAME_FIXES ∧
      ¬ r.cheque_amount < 100000000 := by
  have h : (extract_from_table [[bigRow]] BANK_NAME_FIXES).any
      (fun r => !decide (r.cheque_amount < 100000000)) = true := by decide
  rcases List.any_eq_true.mp h with ⟨r, hr, hp⟩
  refine ⟨r, hr, ?_⟩
  simpa using hp

/-- Claim C7 (amended): the primary amount path accepts the fixed column
value when it contains a thousands separator, a decimal point, or consists
solely of digits, and the returned value is the parse of the comma-stripped
cell and is strictly positive; the primary path enforces no upper bound, so
the claimed bound of 100,000,000 holds only on the scan fallback. -/
theorem amount_primary_accepts (row : List Cell) (a : ℚ)
    (h : extract_amount_primary row = some a) :
    0 < a ∧ ∃ c, getCell row 13 = some c ∧
      (hasChar (pyStrip c) ',' || hasChar (pyStrip c) '.' || pyIsDigit (pyStrip c)) = true ∧
      pyFloat? (dropChar (pyStrip c) ',') = some a :=
  extract_amount_primary_spec h

/-- Witness for C7 at a concrete row. -/
theorem amount_primary_accepts_witness :
    0 < (200000000 : ℚ) ∧ ∃ c, getCell amtRow 13 = some c ∧
      (hasChar (pyStrip c) ',' || hasChar (pyStrip c) '.' || pyIsDigit (pyStrip c)) = true ∧
      pyFloat? (dropChar (pyStrip c) ',') = some 200000000 :=
  amount_primary_accepts amtRow 200000000 (by decide)

/-- Counterexample to C7 as stated: the primary column value 200000000
contains neither a thousands separator nor a decimal point, yet the primary
path accepts it, and the returned value is not below 100,000,000. -/
theorem amount_primary_accepts_cx :
    getCell amtRow 13 = some "200000000".toList ∧
    extract_amount_primary amtRow = some 200000000 ∧
    hasChar "200000000".toList ',' = false ∧
    hasChar "200000000".toList '.' = false ∧
    ¬ (200000000 : ℚ) < 100000000 := by
  decide

/-- Claim C4: on a ledger whose 555 and 055 blocks have equal length and on
which at least one pair is kept, reconciliation is a filter: pair i is kept
iff the last whitespace token of the DESC2 cell of its 555-side row is in
the accepted set, the output pairs are a sublist of the input pairs in
input order, and accepted cheque numbers matching no ledger row change
nothing and cause no error. -/
theorem reconciliation_is_filter (ledger : List (List Str)) (accepted : List Str)
    (hlen : (rows555 ledger).length = (rows055 ledger).length)
    (hne : keptPairs ledger accepted ≠ []) :
    generate_final_batch ledger accepted =
      .ok ((keptPairs ledger accepted).map Prod.fst, (keptPairs ledger accepted).map Prod.snd) ∧
    keptPairs ledger accepted =
      (ledgerPairs ledger).filter (fun p => decide (recoveredCheque p.1 ∈ accepted)) ∧
    (keptPairs ledger accepted).Sublist (ledgerPairs ledger) ∧
    (∀ p ∈ ledgerPairs ledger,
      (p ∈ keptPairs ledger accepted ↔ recoveredCheque p.1 ∈ accepted)) ∧
    ∀ extra : List Str, (∀ x ∈ extra, ∀ p ∈ ledgerPairs ledger, recoveredCheque p.1 ≠ x) →
      generate_final_batch ledger (accepted ++ extra) = generate_final_batch ledger accepted := by
  have hkext : ∀ extra : List Str,
      (∀ x ∈ extra, ∀ p ∈ ledgerPairs ledger, recoveredCheque p.1 ≠ x) →
      keptPairs ledger (accepted ++ extra) = keptPairs ledger accepted := by
    intro extra hx
    unfold keptPairs
    apply List.filter_congr
    intro p hp
    have hiff : recoveredCheque p.1 ∈ accepted ++ extra ↔ recoveredCheque p.1 ∈ accepted := by
      rw [List.mem_append]
      constructor
      · rintro (h1 | h2)
        · exact h1
        · exact absurd rfl (hx _ h2 p hp)
      · exact Or.inl
    simp [hiff]
  have hgb : generate_final_batch ledger accepted =
      .ok ((keptPairs ledger accepted).map Prod.fst,
           (keptPairs ledger accepted).map Prod.snd) := by
    unfold generate_final_batch
    rw [if_neg (fun hne2 => hne2 hlen),
        if_neg (by simpa [List.isEmpty_iff] using hne)]
  refine ⟨hgb, rfl, List.filter_sublist _, ?_, ?_⟩
  · intro p hp
    unfold keptPairs
    rw [List.mem_filter]
    simp [hp]
  · intro extra hx
    unfold generate_final_batch
    rw [hkext extra hx]

/-- Witness for C4 at the scenario ledger of three pairs with accepted set
containing only 222222: exactly one pair is kept. -/
theorem reconciliation_is_filter_witness :
    generate_final_batch ledger3 accepted1 =
      .ok ((keptPairs ledger3 accepted1).map Prod.fst,
           (keptPairs ledger3 accepted1).map Prod.snd) ∧
    (keptPairs ledger3 accepted1).length = 1 :=
  ⟨(reconciliation_is_filter ledger3 accepted1 (by decide) (by decide)).1, by decide⟩
